import Mathlib

/-!
Verification of the metrics acquisition and derivation engine of the
go-smi-api service (gpu.go: the nvidia-smi `GPUMonitor` and the Ollama
`OllamaMonitor`), as a shallow embedding in Lean.

Modelling conventions:
- Go `int`/`int64` are modelled as `Int`; `strconv.Atoi` clamping at the
  64-bit bounds is modelled explicitly where it matters (the program runs
  on a 64-bit platform, so `int` is 64 bits wide).
- Go `float64` values entering the derivation are modelled as exact
  rationals (`ℚ`).  The KV-cache bytes-per-element table holds 0.5625,
  1.0625 and 2.0, all multiples of 1/16, and the products the code forms
  with them stay far below 2^53, where float64 arithmetic is exact, so the
  rational model computes the very same values; float64 rounding is not
  modelled beyond that.  `strconv.ParseFloat` results are modelled by
  `GoFloat` (an exact rational, an infinity, or NaN); the binary rounding
  of in-range finite values is not modelled, and no claim depends on it.
- Strings are processed with structural character-list functions that
  mirror Go's `strings.TrimSpace`, `strings.Split` and `strings.Fields`
  over the ASCII/Latin-1 range (the inputs here are command output, HTTP
  payloads and environment variables, which are ASCII).
- External effects (running nvidia-smi, HTTP calls, the clock, environment
  variables) are inputs to the embedded functions: an `Except` value for a
  call that can fail, a `String` for the current timestamp, a function
  `String → Option ShowResp` for the memoized per-model metadata lookup.
- The single-slot snapshot caches are modelled by explicit state passing:
  a poll step maps the previous `Option` snapshot and the cycle's inputs
  to the next `Option` snapshot.
-/

/-! ### Character and string utilities (Go `strings`, ASCII range) -/

/-- Whitespace as recognized by Go's `unicode.IsSpace` within the Latin-1
range: `\t`, `\n`, `\v`, `\f`, `\r`, space, NEL (U+0085) and NBSP (U+00A0). -/
def goIsSpace (c : Char) : Bool :=
  c == ' ' || c == '\t' || c == '\n' || c == '\r' || c == '\x0b' || c == '\x0c' ||
  c == '\x85' || c == '\xa0'

/-- Drop leading and trailing whitespace from a character list. -/
def goTrimList (cs : List Char) : List Char :=
  ((cs.dropWhile goIsSpace).reverse.dropWhile goIsSpace).reverse

/-- Embeds `strings.TrimSpace`. -/
def goTrim (s : String) : String := String.mk (goTrimList s.data)

/-- Fuel-driven splitter on a non-empty separator; with fuel at least the
length of the input it computes exactly Go's `strings.Split`. -/
def goSplitFuel (sep : List Char) : Nat → List Char → List (List Char)
  | 0, cs => [cs]
  | fuel+1, cs =>
    match cs with
    | [] => [[]]
    | c :: rest =>
      if sep.isPrefixOf cs then
        [] :: goSplitFuel sep fuel (cs.drop sep.length)
      else
        match goSplitFuel sep fuel rest with
        | [] => [[c]]
        | part :: parts => (c :: part) :: parts

/-- Embeds `strings.Split` (for the non-empty separators used in gpu.go). -/
def goSplitOn (s sep : String) : List String :=
  (goSplitFuel sep.data s.data.length s.data).map String.mk

/-- Accumulator-style worker for `goFields`; `acc` is the current token
reversed. -/
def goFieldsAux : List Char → List Char → List (List Char)
  | [], acc => if acc.isEmpty then [] else [acc.reverse]
  | c :: rest, acc =>
    if goIsSpace c then
      if acc.isEmpty then goFieldsAux rest [] else acc.reverse :: goFieldsAux rest []
    else goFieldsAux rest (c :: acc)

/-- Embeds `strings.Fields`: split around runs of whitespace, no empty
fields. -/
def goFields (s : String) : List String :=
  (goFieldsAux s.data []).map String.mk

/-! ### Integer parsing (`strconv.Atoi` with the error discarded) -/

/-- Strip one optional leading sign, reporting whether it was a minus. -/
def intSignSplit : List Char → Bool × List Char
  | '-' :: rest => (true, rest)
  | '+' :: rest => (false, rest)
  | cs => (false, cs)

/-- The value `v` of `v, err := strconv.Atoi(s)` on a 64-bit platform, with
`err` discarded exactly as `parseInt` in gpu.go does: a syntax error yields
0, while a syntactically valid but out-of-range decimal is clamped to the
64-bit `int` bounds (strconv returns the saturated value together with
`ErrRange`). -/
def atoiGo (s : String) : Int :=
  let p := intSignSplit s.data
  if p.2.isEmpty || !p.2.all Char.isDigit then 0
  else
    let n : Nat := p.2.foldl (fun a c => a * 10 + (c.toNat - 48)) 0
    if p.1 then
      if n > 2 ^ 63 then -(2 ^ 63) else -(n : Int)
    else
      if n ≥ 2 ^ 63 then 2 ^ 63 - 1 else (n : Int)

/-- Whether `strconv.Atoi` accepts the string syntactically: an optional
sign followed by at least one decimal digit and nothing else. -/
def goIntSyntax (s : String) : Bool :=
  let p := intSignSplit s.data
  !(p.2.isEmpty || !p.2.all Char.isDigit)

/-- Embeds `parseInt` (gpu.go): trim, map the not-applicable markers to 0,
otherwise `strconv.Atoi` with the error ignored. -/
def parseInt (s : String) : Int :=
  let t := goTrim s
  if t = "[N/A]" ∨ t = "N/A" ∨ t = "" then 0 else atoiGo t

/-! ### Float parsing (`strconv.ParseFloat` with the error discarded)

`GoFloat` models the `float64` result: finite values are carried as exact
rationals (binary rounding of in-range values is not modelled — no claim
depends on it), and the special values are explicit. -/

inductive GoFloat where
  | finite (q : ℚ)
  | posInf
  | negInf
  | nan
deriving DecidableEq, Repr

/-- Go's `strconv` byte-level `lower`: set bit 0x20 (ASCII only). -/
def lowerByte (c : Char) : Char :=
  if c.toNat < 128 then Char.ofNat (c.toNat ||| 32) else c

/-- The special spellings `strconv.ParseFloat` accepts for the whole input:
optionally signed `inf`/`infinity` and unsigned `nan`, case-insensitively. -/
def specialFloat (s : String) : Option GoFloat :=
  let ls := String.mk (s.data.map lowerByte)
  if ls = "inf" ∨ ls = "infinity" ∨ ls = "+inf" ∨ ls = "+infinity" then some .posInf
  else if ls = "-inf" ∨ ls = "-infinity" then some .negInf
  else if ls = "nan" then some .nan
  else none

/-- Scanner state for the mantissa loop of strconv's `readFloat`. -/
structure MantScan where
  digits : List Nat
  fracDigits : Nat
  sawDot : Bool
  sawDigit : Bool
deriving Repr

/-- Is `c` a mantissa digit in the given base. -/
def isMantDigit (hex : Bool) (c : Char) : Bool :=
  c.isDigit || (hex && 'a' ≤ lowerByte c && lowerByte c ≤ 'f')

/-- Numeric value of a mantissa digit. -/
def mantDigitVal (c : Char) : Nat :=
  if c.isDigit then c.toNat - 48 else (lowerByte c).toNat - 87

/-- The mantissa loop of `readFloat`: consume digits, underscores and at
most one dot; return the state and the unconsumed suffix. -/
def mantLoop (hex : Bool) : List Char → MantScan → MantScan × List Char
  | [], st => (st, [])
  | c :: rest, st =>
    if c = '_' then mantLoop hex rest st
    else if c = '.' then
      if st.sawDot then (st, c :: rest)
      else mantLoop hex rest { st with sawDot := true }
    else if isMantDigit hex c then
      mantLoop hex rest
        { st with digits := st.digits ++ [mantDigitVal c], sawDigit := true,
                  fracDigits := if st.sawDot then st.fracDigits + 1 else st.fracDigits }
    else (st, c :: rest)

/-- Exponent digit loop of `readFloat`: digits and underscores only, value
accumulation capped below 10000 exactly as in strconv. -/
def expDigitsLoop : List Char → Int → Option Int
  | [], e => some e
  | c :: rest, e =>
    if c = '_' then expDigitsLoop rest e
    else if c.isDigit then
      expDigitsLoop rest (if e < 10000 then e * 10 + ((c.toNat : Int) - 48) else e)
    else none

/-- Parse the exponent body (after the `e`/`p` marker): optional sign, then
at least one digit; the whole remainder must be consumed. -/
def expPart (cs : List Char) : Option Int :=
  match cs with
  | [] => none
  | c :: rest =>
    let p : Int × List Char :=
      if c = '+' then (1, rest) else if c = '-' then (-1, rest) else (1, c :: rest)
    match p.2 with
    | [] => none
    | d :: _ =>
      if d.isDigit then (expDigitsLoop p.2 0).map (fun e => p.1 * e) else none

/-- State loop of strconv's `underscoreOK`; `saw` is the class of the last
character: start of number, digit or base prefix, underscore, or other. -/
def underscoreOKLoop (hex : Bool) : List Char → Char → Bool
  | [], saw => saw ≠ '_'
  | c :: rest, saw =>
    if (!hex && c.isDigit) || (hex && isMantDigit true c) then
      underscoreOKLoop hex rest '0'
    else if c = '_' then
      if saw ≠ '0' then false else underscoreOKLoop hex rest '_'
    else if saw = '_' then false
    else underscoreOKLoop hex rest '!'

/-- Embeds strconv's `underscoreOK`: underscores may only separate digits
(or follow a base prefix). -/
def underscoreOK (cs : List Char) : Bool :=
  let cs1 := match cs with
    | c :: rest => if c = '-' ∨ c = '+' then rest else cs
    | [] => cs
  match cs1 with
  | a :: b :: rest =>
    if a = '0' ∧ (lowerByte b = 'b' ∨ lowerByte b = 'o' ∨ lowerByte b = 'x') then
      underscoreOKLoop (lowerByte b = 'x') rest '0'
    else underscoreOKLoop false cs1 '^'
  | _ => underscoreOKLoop false cs1 '^'

/-- Embeds `readFloat` of strconv restricted to a full-string match (which
is what `ParseFloat` demands): `none` on any syntax error, otherwise the
exact rational value of the literal.  Decimal form: optional sign, digits
with at most one dot, optional `e`-exponent.  Hex form: `0x` digits with at
most one dot and a mandatory `p`-exponent. -/
def readFloatFull (cs : List Char) : Option ℚ :=
  match cs with
  | [] => none
  | _ =>
    let sgn : ℚ := match cs with | '-' :: _ => -1 | _ => 1
    let cs1 := match cs with | '+' :: r => r | '-' :: r => r | r => r
    let hr : Bool × List Char :=
      match cs1 with
      | '0' :: x :: c :: r => if lowerByte x = 'x' then (true, c :: r) else (false, cs1)
      | _ => (false, cs1)
    let hex := hr.1
    let scan := mantLoop hex hr.2 ⟨[], 0, false, false⟩
    let st := scan.1
    let rest := scan.2
    if !st.sawDigit then none
    else
      let m : ℚ := (st.digits.foldl (fun a d => a * (if hex then 16 else 10) + d) 0 : ℕ)
      let valOf : Int → ℚ := fun e =>
        if hex then sgn * m * 16 ^ (-(st.fracDigits : Int)) * 2 ^ e
        else sgn * m * 10 ^ (e - (st.fracDigits : Int))
      let checkU : ℚ → Option ℚ := fun v =>
        if cs.contains '_' && !underscoreOK cs then none else some v
      match rest with
      | [] => if hex then none else checkU (valOf 0)
      | c :: r =>
        if lowerByte c = (if hex then 'p' else 'e') then
          match expPart r with
          | none => none
          | some e => checkU (valOf e)
        else none

/-- The value of `v, _ := strconv.ParseFloat(s, 64)`: special spellings
first, then the numeric grammar; a syntax error yields 0 (the error is
discarded by gpu.go's `parseFloat`). -/
def goParseFloat (s : String) : GoFloat :=
  match specialFloat s with
  | some f => f
  | none =>
    match readFloatFull s.data with
    | some q => .finite q
    | none => .finite 0

/-- Whether `strconv.ParseFloat` accepts the string syntactically. -/
def goFloatSyntax (s : String) : Bool :=
  (specialFloat s).isSome || (readFloatFull s.data).isSome

/-- Embeds `parseFloat` (gpu.go): trim, map the not-applicable markers to
0, otherwise `strconv.ParseFloat` with the error ignored. -/
def parseFloat (s : String) : GoFloat :=
  let t := goTrim s
  if t = "[N/A]" ∨ t = "N/A" ∨ t = "" then .finite 0 else goParseFloat t

/-! ### GPU monitor (gpu.go: `GPUMonitor`, nvidia-smi parsing) -/

/-- A compute process attached to a device (`GPUProcess`). -/
structure GPUProcess where
  pid : Int
  processName : String
  usedMemory : Int
deriving DecidableEq, Repr

/-- One device row (`GPUInfo`).  `processes` is an `Option` because Go
distinguishes the nil slice (as produced by `queryGPUs`) from an attached,
possibly empty, slice: `none` models the nil slice, which serializes as
JSON null. -/
structure GPUInfo where
  index : Int
  name : String
  uuid : String
  driverVersion : String
  temperatureC : Int
  fanSpeedPct : Int
  powerDrawW : GoFloat
  powerLimitW : GoFloat
  memoryUsedMiB : Int
  memoryTotalMiB : Int
  memoryFreeMiB : Int
  gpuUtilizationPct : Int
  memUtilizationPct : Int
  pstate : String
  pcieGenCurrent : Int
  pcieGenMax : Int
  processes : Option (List GPUProcess)
deriving DecidableEq, Repr

/-- A process row with the UUID of its device (`procWithUUID`). -/
structure ProcWithUUID where
  uuid : String
  proc : GPUProcess
deriving DecidableEq, Repr

/-- One snapshot of the hardware sampler (`GPUMetrics`). -/
structure GPUMetrics where
  timestamp : String
  gpus : List GPUInfo
deriving DecidableEq, Repr

/-- The body of the row loop in `queryGPUs`: trim the line, skip it when
empty or when it has fewer than 16 comma-space-separated fields, otherwise
build the `GPUInfo` from the fields (`processes` starts as the nil slice). -/
def gpuLineRow (line : String) : Option GPUInfo :=
  let l := goTrim line
  if l = "" then none
  else
    let fields := goSplitOn l ", "
    if fields.length < 16 then none
    else some {
      index := parseInt (fields.getD 0 ""),
      name := fields.getD 1 "",
      uuid := fields.getD 2 "",
      driverVersion := fields.getD 3 "",
      temperatureC := parseInt (fields.getD 4 ""),
      fanSpeedPct := parseInt (fields.getD 5 ""),
      powerDrawW := parseFloat (fields.getD 6 ""),
      powerLimitW := parseFloat (fields.getD 7 ""),
      memoryUsedMiB := parseInt (fields.getD 8 ""),
      memoryTotalMiB := parseInt (fields.getD 9 ""),
      memoryFreeMiB := parseInt (fields.getD 10 ""),
      gpuUtilizationPct := parseInt (fields.getD 11 ""),
      memUtilizationPct := parseInt (fields.getD 12 ""),
      pstate := fields.getD 13 "",
      pcieGenCurrent := parseInt (fields.getD 14 ""),
      pcieGenMax := parseInt (fields.getD 15 ""),
      processes := none }

/-- The row loop of `queryGPUs` over the already-split lines. -/
def parseGPULines (lines : List String) : List GPUInfo :=
  lines.filterMap gpuLineRow

/-- `queryGPUs` applied to the raw stdout of the device query. -/
def parseGPUOutput (out : String) : List GPUInfo :=
  parseGPULines (goSplitOn (goTrim out) "\n")

/-- Embeds `queryGPUs`; the external command's outcome is the input. -/
def queryGPUs (cmd : Except String String) : Except String (List GPUInfo) :=
  match cmd with
  | .error e => .error ("query-gpu: " ++ e)
  | .ok out => .ok (parseGPUOutput out)

/-- The body of the row loop in `queryProcesses`: skip the line when empty
or when it has fewer than 4 fields. -/
def procLineRow (line : String) : Option ProcWithUUID :=
  let l := goTrim line
  if l = "" then none
  else
    let fields := goSplitOn l ", "
    if fields.length < 4 then none
    else some {
      uuid := fields.getD 0 "",
      proc := {
        pid := parseInt (fields.getD 1 ""),
        processName := fields.getD 2 "",
        usedMemory := parseInt (fields.getD 3 "") } }

/-- The row loop of `queryProcesses` over the already-split lines. -/
def parseProcLines (lines : List String) : List ProcWithUUID :=
  lines.filterMap procLineRow

/-- `queryProcesses` applied to the raw stdout of the process query. -/
def parseProcOutput (out : String) : List ProcWithUUID :=
  parseProcLines (goSplitOn (goTrim out) "\n")

/-- Embeds `queryProcesses`; the external command's outcome is the input. -/
def queryProcesses (cmd : Except String String) : Except String (List ProcWithUUID) :=
  match cmd with
  | .error e => .error ("query-compute-apps: " ++ e)
  | .ok out => .ok (parseProcOutput out)

/-- Append one process under its UUID key, mirroring
`procMap[p.uuid] = append(procMap[p.uuid], p.proc)` on an association list. -/
def insertProc (m : List (String × List GPUProcess)) (u : String) (p : GPUProcess) :
    List (String × List GPUProcess) :=
  match m with
  | [] => [(u, [p])]
  | (k, ps) :: rest =>
    if k = u then (k, ps ++ [p]) :: rest else (k, ps) :: insertProc rest u p

/-- Build the UUID-to-processes map from the process rows in input order. -/
def buildProcMap (procs : List ProcWithUUID) : List (String × List GPUProcess) :=
  procs.foldl (fun m q => insertProc m q.uuid q.proc) []

/-- The `ps, ok := procMap[uuid]` read of `fetchGPUMetrics`: the map entry
when the UUID key is present, and the explicit empty slice otherwise (both
branches of the Go code assign a non-nil slice). -/
def procGroup (pm : List (String × List GPUProcess)) (u : String) : List GPUProcess :=
  match pm.lookup u with
  | some ps => ps
  | none => []

/-- The attach loop of `fetchGPUMetrics`: each device gets its map entry
when the UUID is present, and the explicit empty (non-nil) slice otherwise. -/
def attachProcesses (gpus : List GPUInfo) (procs : List ProcWithUUID) : List GPUInfo :=
  let pm := buildProcMap procs
  gpus.map fun g => { g with processes := some (procGroup pm g.uuid) }

/-- Embeds `fetchGPUMetrics`: both queries must succeed, then processes are
attached by UUID and the snapshot is stamped with the current time (`now`). -/
def fetchGPUMetrics (now : String) (devCmd procCmd : Except String String) :
    Except String GPUMetrics := do
  let gpus ← queryGPUs devCmd
  let procs ← queryProcesses procCmd
  pure { timestamp := now, gpus := attachProcesses gpus procs }

/-- One cycle of `GPUMonitor.poll` as a state transition on the single-slot
cache: a failed fetch leaves the cache untouched, a successful one replaces
it wholesale. -/
def gpuPoll (latest : Option GPUMetrics) (now : String)
    (devCmd procCmd : Except String String) : Option GPUMetrics :=
  match fetchGPUMetrics now devCmd procCmd with
  | .error _ => latest
  | .ok m => some m

/-! ### Ollama monitor (gpu.go: `OllamaMonitor`) -/

/-- `ollamaModelDetails`. -/
structure ModelDetails where
  family : String
  parameterSize : String
  quantizationLevel : String
deriving DecidableEq, Repr

/-- One entry of the `/api/ps` response (`ollamaPsModel`). -/
structure PsModel where
  name : String
  model : String
  size : Int
  digest : String
  details : ModelDetails
  expiresAt : String
  sizeVRAM : Int
deriving DecidableEq, Repr

/-- One entry of the `/api/tags` response (`ollamaTagModel`). -/
structure TagModel where
  name : String
  size : Int
  details : ModelDetails
deriving DecidableEq, Repr

/-- A decoded JSON value inside `model_info` (Go `interface{}` after
`encoding/json`): numbers decode as float64 (exact rationals here), strings
as strings, everything else (bool, null, array, object) is `other`. -/
inductive OVal where
  | num (q : ℚ)
  | str (s : String)
  | other
deriving DecidableEq, Repr

/-- The `/api/show` response (`ollamaShowResponse`), with `model_info` as a
key-value list. -/
structure ShowResp where
  modelInfo : List (String × OVal)
  details : ModelDetails
  parameters : String
deriving Repr

/-- Truncation of a rational toward zero: the value of Go's `int(n)` on a
float64 holding this rational. -/
def ratTrunc (q : ℚ) : Int := q.num.tdiv q.den

/-- Embeds `modelInfoInt`: a missing key or a non-number value yields 0, a
float64 is converted with Go's truncating `int(n)`. -/
def modelInfoInt (info : List (String × OVal)) (key : String) : Int :=
  match info.lookup key with
  | some (.num q) => ratTrunc q
  | _ => 0

/-- Embeds `modelInfoString`: a missing key or a non-string value yields
the empty string. -/
def modelInfoString (info : List (String × OVal)) (key : String) : String :=
  match info.lookup key with
  | some (.str s) => s
  | _ => ""

/-- Embeds `kvDtypeBytesPerElement` (float64 values as exact rationals). -/
def kvDtypeBytesPerElement (dtype : String) : ℚ :=
  if dtype = "q4_0" then 0.5625
  else if dtype = "q8_0" then 1.0625
  else 2.0

/-- Embeds `paramInt`: scan the free-form parameter block line by line and
return `parseInt` of the value of the first line that has exactly two
whitespace-separated fields whose first field is `key`; 0 when absent. -/
def paramInt (params key : String) : Int :=
  ((goSplitOn params "\n").findSome? fun line =>
    let parts := goFields (goTrim line)
    if parts.length = 2 ∧ parts.getD 0 "" = key then
      some (parseInt (parts.getD 1 ""))
    else none).getD 0

/-- Derived KV-cache sizing of one model (`KVCacheInfo`).  `maxSizeMiB` is
Go's float64 division, exact as a rational. -/
structure KVCacheInfo where
  dtype : String
  bytesPerToken : Int
  maxSizeBytes : Int
  maxSizeMiB : ℚ
deriving DecidableEq, Repr

/-- The Go zero value of `KVCacheInfo`. -/
def KVCacheInfo.zero : KVCacheInfo :=
  { dtype := "", bytesPerToken := 0, maxSizeBytes := 0, maxSizeMiB := 0 }

/-- Derived VRAM breakdown of one model (`VRAMBreakdown`). -/
structure VRAMBreakdown where
  totalBytes : Int
  weightsEstBytes : Int
  kvCacheMaxBytes : Int
deriving DecidableEq, Repr

/-- The Go zero value of `VRAMBreakdown`. -/
def VRAMBreakdown.zero : VRAMBreakdown :=
  { totalBytes := 0, weightsEstBytes := 0, kvCacheMaxBytes := 0 }

/-- One loaded model with its derived fields (`RunningModel`). -/
structure RunningModel where
  name : String
  sizeVRAMBytes : Int
  parameterSize : String
  quantization : String
  family : String
  expiresAt : String
  contextWindow : Int
  kvCache : KVCacheInfo
  vram : VRAMBreakdown
deriving DecidableEq, Repr

/-- One snapshot of the runtime sampler (`OllamaStats`). -/
structure OllamaStats where
  timestamp : String
  running : Bool
  version : String
  runningModels : List RunningModel
  availableModelsCount : Int
  totalDiskUsageBytes : Int
deriving DecidableEq, Repr

/-- The architecture string of `fetch`: `general.architecture` from the
metadata, falling back to the catalog family when empty. -/
def archOf (m : PsModel) (s : ShowResp) : String :=
  let a := modelInfoString s.modelInfo "general.architecture"
  if a = "" then m.details.family else a

/-- `nLayers` of `fetch`. -/
def nLayersOf (m : PsModel) (s : ShowResp) : Int :=
  modelInfoInt s.modelInfo (archOf m s ++ ".block_count")

/-- `nHeads` of `fetch`. -/
def nHeadsOf (m : PsModel) (s : ShowResp) : Int :=
  modelInfoInt s.modelInfo (archOf m s ++ ".attention.head_count")

/-- `nKVHeads` of `fetch`. -/
def nKVHeadsOf (m : PsModel) (s : ShowResp) : Int :=
  modelInfoInt s.modelInfo (archOf m s ++ ".attention.head_count_kv")

/-- `embLen` of `fetch`. -/
def embLenOf (m : PsModel) (s : ShowResp) : Int :=
  modelInfoInt s.modelInfo (archOf m s ++ ".embedding_length")

/-- The metadata-declared context length (`ctxLen` before overrides). -/
def ctxLenMetaOf (m : PsModel) (s : ShowResp) : Int :=
  modelInfoInt s.modelInfo (archOf m s ++ ".context_length")

/-- Context-window resolution of `fetch`: a positive `num_ctx` runtime
parameter overrides the metadata value, and a still-zero value falls back
to 2048. -/
def resolveCtx (m : PsModel) (s : ShowResp) : Int :=
  let ctxLen := ctxLenMetaOf m s
  let numCtx := paramInt s.parameters "num_ctx"
  let ctxLen := if numCtx > 0 then numCtx else ctxLen
  if ctxLen = 0 then 2048 else ctxLen

/-- The line `bytesPerToken := int(float64(2*nLayers*nKVHeads*headDim) *
bytesPerElem)` of `fetch`: the float64 product is exact below 2^53 (the
factors are metadata counts), and Go's `int(...)` truncates toward zero. -/
def kvBytesPerToken (kvDtype : String) (nLayers nKVHeads headDim : Int) : Int :=
  ratTrunc ((2 * nLayers * nKVHeads * headDim : ℚ) * kvDtypeBytesPerElement kvDtype)

/-- The fields of `RunningModel` that are filled straight from the
`/api/ps` entry, with every derived field at its Go zero value. -/
def baseRunningModel (m : PsModel) : RunningModel :=
  { name := m.name,
    sizeVRAMBytes := m.sizeVRAM,
    parameterSize := m.details.parameterSize,
    quantization := m.details.quantizationLevel,
    family := m.details.family,
    expiresAt := m.expiresAt,
    contextWindow := 0,
    kvCache := KVCacheInfo.zero,
    vram := VRAMBreakdown.zero }

/-- The per-model body of the loop in `fetch`: without metadata the derived
fields stay at zero; with metadata the context window is always resolved,
and the KV-cache and VRAM breakdown are derived only when all four
architecture fields are positive. -/
def deriveRunningModel (kvDtype : String) (showOf : String → Option ShowResp)
    (m : PsModel) : RunningModel :=
  match showOf m.name with
  | none => baseRunningModel m
  | some s =>
    let rm := { baseRunningModel m with contextWindow := resolveCtx m s }
    if 0 < nLayersOf m s ∧ 0 < nKVHeadsOf m s ∧ 0 < nHeadsOf m s ∧ 0 < embLenOf m s then
      let headDim := embLenOf m s / nHeadsOf m s
      let bpt := kvBytesPerToken kvDtype (nLayersOf m s) (nKVHeadsOf m s) headDim
      let maxB := bpt * resolveCtx m s
      let weightsEst := m.sizeVRAM - maxB
      let weightsEst := if weightsEst < 0 then m.size else weightsEst
      { rm with
        kvCache := { dtype := kvDtype, bytesPerToken := bpt, maxSizeBytes := maxB,
                     maxSizeMiB := (maxB : ℚ) / (1024 * 1024) },
        vram := { totalBytes := m.sizeVRAM, weightsEstBytes := weightsEst,
                  kvCacheMaxBytes := maxB } }
    else rm

/-- The `OLLAMA_KV_CACHE_TYPE` default of `fetch`: empty means `f16`. -/
def resolveKvDtype (envVal : String) : String :=
  if envVal = "" then "f16" else envVal

/-- The external inputs of one `OllamaMonitor.fetch` cycle. -/
structure OllamaEnv where
  now : String
  live : Except String Unit
  version : Except String String
  tags : Except String (List TagModel)
  ps : Except String (List PsModel)
  showOf : String → Option ShowResp
  kvDtypeEnv : String

/-- Embeds `OllamaMonitor.fetch`: a failed liveness probe yields the base
snapshot (`running=false`, no models); version and tags are best-effort; a
failed `/api/ps` returns what was gathered so far; otherwise every loaded
model is dressed with its derived fields. -/
def ollamaFetch (e : OllamaEnv) : OllamaStats :=
  let stats : OllamaStats :=
    { timestamp := e.now, running := false, version := "", runningModels := [],
      availableModelsCount := 0, totalDiskUsageBytes := 0 }
  match e.live with
  | .error _ => stats
  | .ok _ =>
    let stats := { stats with running := true }
    let stats := match e.version with
      | .ok v => { stats with version := v }
      | .error _ => stats
    let stats := match e.tags with
      | .ok models =>
        { stats with
          availableModelsCount := (models.length : Int),
          totalDiskUsageBytes := models.foldl (fun a t => a + t.size) 0 }
      | .error _ => stats
    match e.ps with
    | .error _ => stats
    | .ok models =>
      let kvDtype := resolveKvDtype e.kvDtypeEnv
      { stats with runningModels := models.map (deriveRunningModel kvDtype e.showOf) }

/-- One cycle of `OllamaMonitor.poll`: unconditionally replace the cached
snapshot with the freshly fetched one. -/
def ollamaPoll (latest : Option OllamaStats) (e : OllamaEnv) : Option OllamaStats :=
  some (ollamaFetch e)

/-! ### Concrete sample inputs used by witnesses and counterexamples -/

/-- The model details shared by the samples below. -/
def sampleDetails : ModelDetails :=
  { family := "llama", parameterSize := "8B", quantizationLevel := "Q4_K_M" }

/-- A loaded-model entry as reported by `/api/ps`. -/
def mC1 : PsModel :=
  { name := "llama3:8b", model := "llama3:8b", size := 9000000000, digest := "",
    details := sampleDetails, expiresAt := "2026-01-01T00:00:00Z", sizeVRAM := 7000000000 }

/-- Architecture metadata with the figures of the spec's worked example:
32 layers, 32 heads, 8 KV heads, embedding 4096, context 4096. -/
def sC1 : ShowResp :=
  { modelInfo := [("general.architecture", OVal.str "llama"),
      ("llama.block_count", OVal.num 32),
      ("llama.attention.head_count", OVal.num 32),
      ("llama.attention.head_count_kv", OVal.num 8),
      ("llama.embedding_length", OVal.num 4096),
      ("llama.context_length", OVal.num 4096)],
    details := sampleDetails,
    parameters := "" }

/-- A loaded-model entry whose metadata lacks a layer count. -/
def mC2 : PsModel :=
  { name := "tiny:latest", model := "tiny:latest", size := 1000000, digest := "",
    details := sampleDetails, expiresAt := "soon", sizeVRAM := 2000000 }

/-- Metadata missing `block_count` (so the layer count reads as 0). -/
def sC2 : ShowResp :=
  { modelInfo := [("general.architecture", OVal.str "llama"),
      ("llama.attention.head_count", OVal.num 32),
      ("llama.attention.head_count_kv", OVal.num 8),
      ("llama.embedding_length", OVal.num 4096)],
    details := sampleDetails,
    parameters := "" }

/-- A loaded-model entry whose VRAM footprint is smaller than its KV-cache
budget, forcing the weights-estimate fallback. -/
def mC3 : PsModel :=
  { name := "llama3:8b", model := "llama3:8b", size := 9000000000, digest := "",
    details := sampleDetails, expiresAt := "later", sizeVRAM := 1000 }

/-- A loaded-model entry used by the context-window samples. -/
def mC4 : PsModel :=
  { name := "llama3:8b", model := "llama3:8b", size := 9000000000, digest := "",
    details := sampleDetails, expiresAt := "later", sizeVRAM := 7000000000 }

/-- Metadata whose parameter block overrides the context length. -/
def sC4 : ShowResp :=
  { modelInfo := [("general.architecture", OVal.str "llama"),
      ("llama.context_length", OVal.num 4096)],
    details := sampleDetails,
    parameters := "num_ctx 8192\nstop <end>" }

/-- A device row as parsed from the device query, before process attach. -/
def gpuA : GPUInfo :=
  { index := 0, name := "NVIDIA RTX", uuid := "GPU-u1", driverVersion := "550.54",
    temperatureC := 40, fanSpeedPct := 30, powerDrawW := .finite 0,
    powerLimitW := .finite 0, memoryUsedMiB := 100, memoryTotalMiB := 1000,
    memoryFreeMiB := 900, gpuUtilizationPct := 5, memUtilizationPct := 2,
    pstate := "P0", pcieGenCurrent := 4, pcieGenMax := 4, processes := none }

/-- Two process rows, one on `gpuA`'s device and one elsewhere. -/
def procsA : List ProcWithUUID :=
  [{ uuid := "GPU-u1", proc := { pid := 11, processName := "ollama", usedMemory := 512 } },
   { uuid := "GPU-u2", proc := { pid := 22, processName := "python", usedMemory := 256 } }]

/-- A previously cached hardware snapshot. -/
def oldMetrics : GPUMetrics := { timestamp := "t0", gpus := [gpuA] }

/-- A previously cached runtime snapshot. -/
def oldStats : OllamaStats :=
  { timestamp := "t0", running := true, version := "0.5.0", runningModels := [],
    availableModelsCount := 3, totalDiskUsageBytes := 123456789 }

/-- A runtime poll cycle whose liveness probe fails. -/
def envC6 : OllamaEnv :=
  { now := "t1", live := .error "connection refused", version := .ok "0.5.0",
    tags := .ok [], ps := .ok [], showOf := fun _ => none, kvDtypeEnv := "" }

/-! ### Helper lemmas -/

/-- Truncation toward zero is the identity on integer rationals. -/
theorem ratTrunc_intCast (n : ℤ) : ratTrunc (n : ℚ) = n := by
  simp [ratTrunc, Rat.num_intCast, Rat.den_intCast]

/-- The default cache dtype has two bytes per element. -/
theorem bpe_f16 : kvDtypeBytesPerElement "f16" = 2 := by
  rw [kvDtypeBytesPerElement, if_neg (by decide), if_neg (by decide)]
  norm_num

/-- For the 16-bit-float dtype the per-token byte cost is the pure integer
product: the truncating float conversion is exact. -/
theorem kvBytesPerToken_f16 (L KV hd : ℤ) :
    kvBytesPerToken "f16" L KV hd = 2 * L * KV * hd * 2 := by
  have h : ((2 * L * KV * hd : ℚ) * kvDtypeBytesPerElement "f16") =
      ((2 * L * KV * hd * 2 : ℤ) : ℚ) := by
    rw [bpe_f16]
    push_cast
    ring
  rw [kvBytesPerToken, h, ratTrunc_intCast]

/-- A line with fewer than 16 fields contributes no device row. -/
theorem gpuLineRow_eq_none (line : String)
    (h : (goSplitOn (goTrim line) ", ").length < 16) : gpuLineRow line = none := by
  unfold gpuLineRow
  dsimp only
  split_ifs <;> first | rfl | omega

/-- A line with fewer than 4 fields contributes no process row. -/
theorem procLineRow_eq_none (line : String)
    (h : (goSplitOn (goTrim line) ", ").length < 4) : procLineRow line = none := by
  unfold procLineRow
  dsimp only
  split_ifs <;> first | rfl | omega

/-- `List.lookup` on a cons cell, with propositional equality. -/
theorem lookupCons (a k : String) (b : List GPUProcess)
    (es : List (String × List GPUProcess)) :
    List.lookup a ((k, b) :: es) = if a = k then some b else List.lookup a es := by
  by_cases h : a = k
  · simp [List.lookup, h]
  · simp [List.lookup, h, beq_eq_false_iff_ne.mpr h]

/-- The empty map has only empty groups. -/
theorem procGroup_nil (u : String) : procGroup [] u = [] := by
  simp [procGroup, List.lookup]

/-- Reading a group out of a cons cell of the map. -/
theorem procGroup_cons (u k : String) (ps : List GPUProcess)
    (rest : List (String × List GPUProcess)) :
    procGroup ((k, ps) :: rest) u = if u = k then ps else procGroup rest u := by
  unfold procGroup
  rw [lookupCons]
  by_cases h : u = k <;> simp [h]

/-- Reading the map after one append: the appended process lands at the end
of its own key's group and nowhere else. -/
theorem procGroup_insertProc (m : List (String × List GPUProcess)) (u v : String)
    (p : GPUProcess) :
    procGroup (insertProc m v p) u = if u = v then procGroup m u ++ [p] else procGroup m u := by
  induction m with
  | nil =>
    by_cases h : u = v <;>
      simp [insertProc, procGroup_cons, procGroup_nil, h]
  | cons kv rest ih =>
    obtain ⟨k, ps⟩ := kv
    by_cases hkv : k = v
    · subst hkv
      by_cases huk : u = k <;>
        simp [insertProc, procGroup_cons, huk]
    · by_cases huk : u = k
      · subst huk
        simp [insertProc, hkv, procGroup_cons, Ne.symm hkv]
      · simp [insertProc, hkv, procGroup_cons, huk, ih]

/-- Folding the process rows into the map, started from any partial map,
appends each key's matching processes in input order. -/
theorem procGroup_foldl (procs : List ProcWithUUID) :
    ∀ (m : List (String × List GPUProcess)) (u : String),
      procGroup (procs.foldl (fun acc q => insertProc acc q.uuid q.proc) m) u =
        procGroup m u ++ (procs.filter (fun p => p.uuid == u)).map ProcWithUUID.proc := by
  induction procs with
  | nil => intro m u; simp
  | cons q rest ih =>
    intro m u
    simp only [List.foldl_cons, List.filter_cons]
    rw [ih, procGroup_insertProc]
    by_cases h : u = q.uuid
    · simp [h, List.append_assoc]
    · have hne : (q.uuid == u) = false := by
        simp [beq_iff_eq]
        exact fun hc => h hc.symm
      simp [if_neg h, hne]

/-- The map built by `fetchGPUMetrics` groups exactly the rows whose UUID
matches, preserving input order. -/
theorem procGroup_buildProcMap (procs : List ProcWithUUID) (u : String) :
    procGroup (buildProcMap procs) u =
      (procs.filter (fun p => p.uuid == u)).map ProcWithUUID.proc := by
  rw [buildProcMap, procGroup_foldl]
  simp [procGroup, List.lookup]

/-! ### Claim theorems -/

/-- Claim C1: for every loaded model whose architecture metadata yields
positive layer count L, head count H, KV-head count KV and embedding length
E, with context window C and the 16-bit-float cache dtype, the derived
sizing is head dimension = E / H (integer division), bytes per token =
2*L*KV*(E/H)*2.0 and max KV-cache bytes = bytes-per-token * C; in
particular for L=32, KV=8, H=32, E=4096, C=4096 the head dimension is 128,
bytes per token 131072 and max KV bytes 536870912 (computed end-to-end
through the per-model derivation). -/
theorem kv_cache_sizing_formula :
    (∀ L H KV E C : ℤ, 0 < L → 0 < H → 0 < KV → 0 < E → 0 < C →
        kvBytesPerToken "f16" L KV (E / H) = 2 * L * KV * (E / H) * 2 ∧
        kvBytesPerToken "f16" L KV (E / H) * C = 2 * L * KV * (E / H) * 2 * C) ∧
    resolveKvDtype "" = "f16" ∧
    embLenOf mC1 sC1 / nHeadsOf mC1 sC1 = 128 ∧
    (deriveRunningModel "f16" (fun _ => some sC1) mC1).kvCache.bytesPerToken = 131072 ∧
    (deriveRunningModel "f16" (fun _ => some sC1) mC1).kvCache.maxSizeBytes = 536870912 := by
  refine ⟨fun L H KV E C hL hH hKV hE hC => ⟨kvBytesPerToken_f16 L KV (E / H), ?_⟩, ?_, ?_, ?_⟩
  · rw [kvBytesPerToken_f16]
  · decide
  · decide
  · have hguard : (0 < nLayersOf mC1 sC1 ∧ 0 < nKVHeadsOf mC1 sC1 ∧
        0 < nHeadsOf mC1 sC1 ∧ 0 < embLenOf mC1 sC1) := by decide
    have h1 : nLayersOf mC1 sC1 = 32 := by decide
    have h2 : nKVHeadsOf mC1 sC1 = 8 := by decide
    have h3 : nHeadsOf mC1 sC1 = 32 := by decide
    have h4 : embLenOf mC1 sC1 = 4096 := by decide
    have hctx : resolveCtx mC1 sC1 = 4096 := by decide
    simp only [deriveRunningModel]
    rw [if_pos hguard]
    dsimp only
    rw [kvBytesPerToken_f16, h1, h2, h3, h4, hctx]
    norm_num

/-- Witness for C1 at the spec's worked example. -/
theorem kv_cache_sizing_formula_witness :
    kvBytesPerToken "f16" 32 8 ((4096 : ℤ) / 32) = 2 * 32 * 8 * ((4096 : ℤ) / 32) * 2 ∧
    kvBytesPerToken "f16" 32 8 ((4096 : ℤ) / 32) * 4096 =
      2 * 32 * 8 * ((4096 : ℤ) / 32) * 2 * 4096 :=
  kv_cache_sizing_formula.1 32 32 8 4096 4096 (by decide) (by decide) (by decide)
    (by decide) (by decide)

/-- Claim C2: whenever any of the four architecture fields (layer count,
KV-head count, head count, embedding length) is missing or non-positive,
the KV-cache and VRAM-breakdown fields of that model are all zero-valued,
while the fields copied from the loaded-models response (name, VRAM
footprint, parameter size, quantization, family, expiry) are populated. -/
theorem arch_missing_zero_fields (kvDtype : String) (showOf : String → Option ShowResp)
    (m : PsModel)
    (h : ∀ s, showOf m.name = some s →
      nLayersOf m s ≤ 0 ∨ nKVHeadsOf m s ≤ 0 ∨ nHeadsOf m s ≤ 0 ∨ embLenOf m s ≤ 0) :
    (deriveRunningModel kvDtype showOf m).kvCache = KVCacheInfo.zero ∧
    (deriveRunningModel kvDtype showOf m).vram = VRAMBreakdown.zero ∧
    (deriveRunningModel kvDtype showOf m).name = m.name ∧
    (deriveRunningModel kvDtype showOf m).sizeVRAMBytes = m.sizeVRAM ∧
    (deriveRunningModel kvDtype showOf m).parameterSize = m.details.parameterSize ∧
    (deriveRunningModel kvDtype showOf m).quantization = m.details.quantizationLevel ∧
    (deriveRunningModel kvDtype showOf m).family = m.details.family ∧
    (deriveRunningModel kvDtype showOf m).expiresAt = m.expiresAt := by
  cases hs : showOf m.name with
  | none =>
    simp [deriveRunningModel, hs, baseRunningModel]
  | some s =>
    have hng : ¬(0 < nLayersOf m s ∧ 0 < nKVHeadsOf m s ∧ 0 < nHeadsOf m s ∧
        0 < embLenOf m s) := by
      rcases h s hs with h1 | h1 | h1 | h1 <;> rintro ⟨a, b, c, d⟩ <;> omega
    simp [deriveRunningModel, hs, if_neg hng, baseRunningModel]

/-- Witness for C2: metadata lacking the layer count leaves all derived
memory fields at zero while the directly copied fields survive. -/
theorem arch_missing_zero_fields_witness :
    (deriveRunningModel "f16" (fun _ => some sC2) mC2).kvCache = KVCacheInfo.zero ∧
    (deriveRunningModel "f16" (fun _ => some sC2) mC2).vram = VRAMBreakdown.zero ∧
    (deriveRunningModel "f16" (fun _ => some sC2) mC2).name = mC2.name ∧
    (deriveRunningModel "f16" (fun _ => some sC2) mC2).sizeVRAMBytes = mC2.sizeVRAM ∧
    (deriveRunningModel "f16" (fun _ => some sC2) mC2).parameterSize =
      mC2.details.parameterSize ∧
    (deriveRunningModel "f16" (fun _ => some sC2) mC2).quantization =
      mC2.details.quantizationLevel ∧
    (deriveRunningModel "f16" (fun _ => some sC2) mC2).family = mC2.details.family ∧
    (deriveRunningModel "f16" (fun _ => some sC2) mC2).expiresAt = mC2.expiresAt :=
  arch_missing_zero_fields "f16" (fun _ => some sC2) mC2
    (fun s hs => by cases hs; exact Or.inl (by decide))

/-- Claim C3: under a computed max KV-cache size, the estimated
weights-only bytes equal the reported VRAM footprint minus the max KV-cache
bytes when that difference is non-negative, and the catalog on-disk size
otherwise; with a non-negative catalog size the estimate is never
negative. -/
theorem weights_estimate_fallback (kvDtype : String) (showOf : String → Option ShowResp)
    (m : PsModel) (s : ShowResp) (hs : showOf m.name = some s)
    (hL : 0 < nLayersOf m s) (hKV : 0 < nKVHeadsOf m s)
    (hH : 0 < nHeadsOf m s) (hE : 0 < embLenOf m s) :
    ((deriveRunningModel kvDtype showOf m).vram.weightsEstBytes =
      if 0 ≤ m.sizeVRAM - (deriveRunningModel kvDtype showOf m).vram.kvCacheMaxBytes
      then m.sizeVRAM - (deriveRunningModel kvDtype showOf m).vram.kvCacheMaxBytes
      else m.size) ∧
    (0 ≤ m.size → 0 ≤ (deriveRunningModel kvDtype showOf m).vram.weightsEstBytes) := by
  simp only [deriveRunningModel, hs]
  rw [if_pos ⟨hL, hKV, hH, hE⟩]
  dsimp only
  generalize kvBytesPerToken kvDtype (nLayersOf m s) (nKVHeadsOf m s)
    (embLenOf m s / nHeadsOf m s) * resolveCtx m s = B
  constructor
  · split_ifs <;> omega
  · intro hsz
    split_ifs <;> omega

/-- Witness for C3 on a model whose footprint is below the KV budget. -/
theorem weights_estimate_fallback_witness :
    ((deriveRunningModel "f16" (fun _ => some sC1) mC3).vram.weightsEstBytes =
      if 0 ≤ mC3.sizeVRAM - (deriveRunningModel "f16" (fun _ => some sC1) mC3).vram.kvCacheMaxBytes
      then mC3.sizeVRAM - (deriveRunningModel "f16" (fun _ => some sC1) mC3).vram.kvCacheMaxBytes
      else mC3.size) ∧
    (0 ≤ mC3.size → 0 ≤ (deriveRunningModel "f16" (fun _ => some sC1) mC3).vram.weightsEstBytes) :=
  weights_estimate_fallback "f16" (fun _ => some sC1) mC3 sC1 rfl
    (by decide) (by decide) (by decide) (by decide)

/-- Counterexample to claim C4 as stated: for a loaded model whose
metadata fetch fails, neither a `num_ctx` parameter nor a metadata context
length exists, yet the derived context window is 0, not the claimed default
2048. -/
theorem context_window_counterexample :
    (deriveRunningModel "f16" (fun _ => none) mC4).contextWindow = 0 ∧
    (0 : ℤ) ≠ 2048 := by
  constructor
  · rfl
  · decide

/-- Claim C4 as amended: when the model's architecture metadata record was
obtained, the derived context window is the `num_ctx` value of the
free-form parameter block when present and positive, otherwise the
metadata-declared context length, and 2048 when that is zero; when the
metadata record could not be obtained the context window stays 0. -/
theorem context_window_resolution (kvDtype : String) (showOf : String → Option ShowResp)
    (m : PsModel) :
    (∀ s, showOf m.name = some s →
      (deriveRunningModel kvDtype showOf m).contextWindow =
        (if 0 < paramInt s.parameters "num_ctx" then paramInt s.parameters "num_ctx"
         else if ctxLenMetaOf m s = 0 then 2048 else ctxLenMetaOf m s)) ∧
    (showOf m.name = none → (deriveRunningModel kvDtype showOf m).contextWindow = 0) := by
  constructor
  · intro s hs
    have hcw : (deriveRunningModel kvDtype showOf m).contextWindow = resolveCtx m s := by
      simp only [deriveRunningModel, hs]
      split_ifs <;> rfl
    rw [hcw]
    unfold resolveCtx
    dsimp only
    split_ifs <;> omega
  · intro hs
    simp [deriveRunningModel, hs, baseRunningModel]

/-- Witness for C4 (amended): a positive `num_ctx` runtime parameter
overrides the metadata context length. -/
theorem context_window_resolution_witness :
    (deriveRunningModel "f16" (fun _ => some sC4) mC4).contextWindow = 8192 := by
  have h := (context_window_resolution "f16" (fun _ => some sC4) mC4).1 sC4 rfl
  rw [h]
  decide

/-- Claim C5: a hardware poll cycle in which either external query fails
leaves the cached snapshot completely unchanged, and the cache is replaced
(wholesale) exactly when both queries succeed. -/
theorem hardware_poll_failure_semantics (latest : Option GPUMetrics) (now : String)
    (devCmd procCmd : Except String String) :
    (((∃ e, devCmd = .error e) ∨ (∃ e, procCmd = .error e)) →
        gpuPoll latest now devCmd procCmd = latest) ∧
    (∀ d p, devCmd = .ok d → procCmd = .ok p →
        gpuPoll latest now devCmd procCmd =
          some { timestamp := now,
                 gpus := attachProcesses (parseGPUOutput d) (parseProcOutput p) }) := by
  constructor
  · rintro (⟨e, rfl⟩ | ⟨e, rfl⟩)
    · rfl
    · cases devCmd <;> rfl
  · rintro d p rfl rfl
    rfl

/-- Witness for C5: a failing device query keeps the old snapshot; two
successful queries replace it. -/
theorem hardware_poll_failure_semantics_witness :
    gpuPoll (some oldMetrics) "t1" (.error "exit status 9") (.ok "") = some oldMetrics ∧
    gpuPoll (some oldMetrics) "t1" (.ok "") (.ok "") =
      some { timestamp := "t1",
             gpus := attachProcesses (parseGPUOutput "") (parseProcOutput "") } :=
  ⟨(hardware_poll_failure_semantics (some oldMetrics) "t1" (.error "exit status 9")
      (.ok "")).1 (Or.inl ⟨"exit status 9", rfl⟩),
   (hardware_poll_failure_semantics (some oldMetrics) "t1" (.ok "") (.ok "")).2
      "" "" rfl rfl⟩

/-- Claim C6: a runtime poll cycle whose liveness probe fails still stores
a fresh timestamped snapshot — running is false and the model list empty —
replacing whatever was cached before. -/
theorem runtime_poll_liveness_failure (latest : Option OllamaStats) (e : OllamaEnv)
    (err : String) (h : e.live = .error err) :
    ollamaPoll latest e =
      some { timestamp := e.now, running := false, version := "",
             runningModels := [], availableModelsCount := 0,
             totalDiskUsageBytes := 0 } := by
  simp [ollamaPoll, ollamaFetch, h]

/-- Witness for C6: a refused connection yields the fresh not-running
snapshot even though an older, richer snapshot was cached. -/
theorem runtime_poll_liveness_failure_witness :
    ollamaPoll (some oldStats) envC6 =
      some { timestamp := "t1", running := false, version := "",
             runningModels := [], availableModelsCount := 0,
             totalDiskUsageBytes := 0 } :=
  runtime_poll_liveness_failure (some oldStats) envC6 "connection refused" rfl

/-- Claim C7: every numeric device-row field holding a not-applicable
marker parses to zero through the total parsers, never signalling an
error. -/
theorem na_markers_parse_to_zero (s : String)
    (h : goTrim s = "[N/A]" ∨ goTrim s = "N/A" ∨ goTrim s = "") :
    parseInt s = 0 ∧ parseFloat s = GoFloat.finite 0 := by
  rcases h with h | h | h <;> simp [parseInt, parseFloat, h]

/-- Witness for C7 at a padded `[N/A]` field. -/
theorem na_markers_parse_to_zero_witness :
    (goTrim " [N/A] " = "[N/A]" ∨ goTrim " [N/A] " = "N/A" ∨ goTrim " [N/A] " = "") ∧
    parseInt " [N/A] " = 0 ∧ parseFloat " [N/A] " = GoFloat.finite 0 :=
  ⟨Or.inl (by decide), na_markers_parse_to_zero " [N/A] " (Or.inl (by decide))⟩

/-- Claim C8: a line with fewer comma-separated fields than the schema (16
for device rows, 4 for process rows) is silently skipped and every other
line of the same output is still parsed. -/
theorem malformed_rows_skipped :
    (∀ (pre post : List String) (bad : String),
        (goSplitOn (goTrim bad) ", ").length < 16 →
        parseGPULines (pre ++ bad :: post) = parseGPULines pre ++ parseGPULines post) ∧
    (∀ (pre post : List String) (bad : String),
        (goSplitOn (goTrim bad) ", ").length < 4 →
        parseProcLines (pre ++ bad :: post) = parseProcLines pre ++ parseProcLines post) := by
  constructor
  · intro pre post bad h
    simp [parseGPULines, List.filterMap_append, List.filterMap_cons,
      gpuLineRow_eq_none bad h]
  · intro pre post bad h
    simp [parseProcLines, List.filterMap_append, List.filterMap_cons,
      procLineRow_eq_none bad h]

/-- Witness for C8: a short row between two well-formed device rows is
dropped while both neighbours parse. -/
theorem malformed_rows_skipped_witness :
    (goSplitOn (goTrim "oops, truncated row") ", ").length < 16 ∧
    parseGPULines
        (["0, A100, GPU-u1, 550.54, 40, 30, 100.5, 300.0, 100, 1000, 900, 5, 2, P0, 4, 4"] ++
          "oops, truncated row" ::
            ["1, A100, GPU-u2, 550.54, 41, 31, 101.5, 300.0, 200, 1000, 800, 6, 3, P2, 4, 4"]) =
      parseGPULines
          ["0, A100, GPU-u1, 550.54, 40, 30, 100.5, 300.0, 100, 1000, 900, 5, 2, P0, 4, 4"] ++
        parseGPULines
          ["1, A100, GPU-u2, 550.54, 41, 31, 101.5, 300.0, 200, 1000, 800, 6, 3, P2, 4, 4"] :=
  ⟨by decide,
   malformed_rows_skipped.1
     ["0, A100, GPU-u1, 550.54, 40, 30, 100.5, 300.0, 100, 1000, 900, 5, 2, P0, 4, 4"]
     ["1, A100, GPU-u2, 550.54, 41, 31, 101.5, 300.0, 200, 1000, 800, 6, 3, P2, 4, 4"]
     "oops, truncated row" (by decide)⟩

/-- Claim C9: in a snapshot produced by a successful poll, every device's
process list is present (`some`), holding exactly the process records whose
UUID matches the device — the explicit empty list when none match; and a
successful fetch is exactly the attach of the parsed queries, stamped. -/
theorem process_list_always_present :
    (∀ (gpus : List GPUInfo) (procs : List ProcWithUUID),
        ∀ g ∈ attachProcesses gpus procs,
          g.processes =
            some ((procs.filter (fun p => p.uuid == g.uuid)).map ProcWithUUID.proc)) ∧
    (∀ (now d p : String),
        fetchGPUMetrics now (.ok d) (.ok p) =
          .ok { timestamp := now,
                gpus := attachProcesses (parseGPUOutput d) (parseProcOutput p) }) := by
  constructor
  · intro gpus procs g hg
    simp only [attachProcesses, List.mem_map] at hg
    obtain ⟨g0, hg0, rfl⟩ := hg
    simp [procGroup_buildProcMap]
  · intro now d p
    rfl

/-- Witness for C9: the device with an attached process gets exactly its
own process list, per the theorem. -/
theorem process_list_always_present_witness :
    ({ gpuA with
        processes := some [{ pid := 11, processName := "ollama", usedMemory := 512 }] } :
          GPUInfo) ∈ attachProcesses [gpuA] procsA ∧
    ({ gpuA with
        processes := some [{ pid := 11, processName := "ollama", usedMemory := 512 }] } :
          GPUInfo).processes =
      some ((procsA.filter (fun p =>
          p.uuid == ({ gpuA with
            processes := some [{ pid := 11, processName := "ollama", usedMemory := 512 }] } :
              GPUInfo).uuid)).map ProcWithUUID.proc) :=
  ⟨by decide,
   process_list_always_present.1 [gpuA] procsA _ (by decide)⟩

/-- Counterexample to claim C10 as stated: not every invalid numeric field
parses to zero — an out-of-range decimal saturates at the 64-bit bound
(strconv returns the clamped value with `ErrRange`, and the error is
discarded), and the float parser maps the `inf` spelling to an infinity. -/
theorem parse_totality_counterexample :
    parseInt "9223372036854775808" = 9223372036854775807 ∧
    (9223372036854775807 : ℤ) ≠ 0 ∧
    parseFloat "inf" = GoFloat.posInf ∧
    GoFloat.posInf ≠ GoFloat.finite 0 := by
  refine ⟨by decide, by decide, by decide, ?_⟩
  intro h
  cases h

/-- Claim C10 as amended: the field parsers are total and never signal an
error; every string that fails the numeric syntax of strconv (not only the
not-applicable markers) parses to zero, so a garbage field yields a zero
value instead of dropping the row or failing the cycle; however, inputs
that are syntactically valid but out of range (or special float spellings)
yield the saturated bound or the special value, not zero. -/
theorem parse_totality_amended :
    (∀ s : String, goIntSyntax (goTrim s) = false → parseInt s = 0) ∧
    (∀ s : String, goFloatSyntax (goTrim s) = false → parseFloat s = GoFloat.finite 0) ∧
    parseInt "99999999999999999999" = 9223372036854775807 ∧
    parseFloat "-inf" = GoFloat.negInf := by
  refine ⟨?_, ?_, by decide, by decide⟩
  · intro s h
    unfold parseInt
    dsimp only
    split_ifs with hm
    · rfl
    · unfold goIntSyntax at h
      unfold atoiGo
      dsimp only at h ⊢
      rw [Bool.not_eq_false'] at h
      rw [if_pos h]
  · intro s h
    unfold goFloatSyntax at h
    rw [Bool.or_eq_false_iff] at h
    unfold parseFloat
    dsimp only
    split_ifs with hm
    · rfl
    · unfold goParseFloat
      rcases hsp : specialFloat (goTrim s) with _ | f
      · rcases hrd : readFloatFull (goTrim s).data with _ | q
        · simp [hsp, hrd]
        · rw [hrd] at h
          simp at h
      · rw [hsp] at h
        simp at h

/-- Witness for C10 (amended): garbage fields parse to zero through both
parsers. -/
theorem parse_totality_amended_witness :
    goIntSyntax (goTrim "12,34%") = false ∧ parseInt "12,34%" = 0 ∧
    goFloatSyntax (goTrim "garbage") = false ∧ parseFloat "garbage" = GoFloat.finite 0 :=
  ⟨by decide, parse_totality_amended.1 "12,34%" (by decide),
   by decide, parse_totality_amended.2.1 "garbage" (by decide)⟩
